import Mathlib

/-!
Shallow embedding of the incident-simulation core of the streamlit-web
repository (src/app.py, src/app02.py, src/app03.py).

Time t is in minutes and is modelled as a rational number; the Python
floats carry only rational arithmetic in these functions, except for the
cube root in the blast radii and the square roots in the geometry helper,
which are modelled over the reals.
-/

namespace LngSim

/-- Physical constants, src/app.py lines 94-100 (identical in app02.py 15-21). -/
def R_TANK : ℚ := 5

/-- Tank height constant, src/app.py line 95. -/
def H_TANK : ℚ := 20

/-- Leak rate in kg per second, src/app.py line 96. -/
def LEAK_RATE_KG_S : ℚ := 0.8

/-- VCE explosion efficiency, src/app.py line 97. -/
def VCE_EFFICIENCY : ℚ := 0.03

/-- Combustible fraction of the leaked inventory, src/app.py line 98. -/
def COMBUSTIBLE_FRACTION : ℚ := 0.25

/-- Heat of combustion of LNG in J per kg (50e6), src/app.py line 99. -/
def COMBUSTION_HEAT_LNG : ℚ := 50000000

/-- Heat of explosion of TNT in J per kg (4.5e6), src/app.py line 100. -/
def EXPLOSION_HEAT_TNT : ℚ := 4500000

/-- Status strings of the state dictionaries: the Chinese string for
leaking dispersion versus the string for a VCE explosion. -/
inductive Status where
  | leaking
  | explosion
deriving DecidableEq

/-- Danger-level strings of the state dictionaries, in their source order:
low (warning), medium (danger), high (urgent), catastrophic. -/
inductive DangerLevel where
  | low
  | medium
  | high
  | catastrophic
deriving DecidableEq

/-- Explosion-only entries of the state dictionary of
calculate_complex_state, src/app.py lines 145-157: the TNT equivalent mass
and the three blast radii (0.29, 0.62 and 0.98 times the cube root). -/
structure ExplosionData where
  W_tnt : ℚ
  R_400kpa : ℝ
  R_100kpa : ℝ
  R_50kpa : ℝ

/-- The state dictionary returned by calculate_complex_state,
src/app.py lines 112-173.  The explosion-only keys are grouped in an
Option field that is populated exactly when the source sets those keys;
max_conc is set only on the non-explosion branch. -/
structure ComplexState where
  area : ℚ
  H_cloud : ℚ
  total_leak_kg : ℚ
  explosion : Option ExplosionData
  max_conc : Option String
  status : Status
  danger_level : DangerLevel

/-- Piecewise-linear cloud-area interpolation, src/app.py lines 121-130
(identical in app02.py 47-56 and app03.py 46-55). -/
def interpArea (t : ℚ) : ℚ :=
  if t ≤ 1 then 20 * t
  else if t ≤ 3 then 20 + (400 - 20) * (t - 1) / 2
  else if t ≤ 5 then 400 + (800 - 400) * (t - 3) / 2
  else if t ≤ 10 then 800 + (1200 - 800) * (t - 5) / 5
  else 1200

/-- Cloud height model, src/app.py lines 132-138 (identical in
app02.py 58-63). -/
def cloudHeight (t : ℚ) : ℚ :=
  if t < 5 then 0.5 + 0.5 * t
  else if t ≤ 10 then 3.0 + 0.2 * (t - 5)
  else 4.0

/-- Total leaked mass of calculate_complex_state, src/app.py
lines 114 and 118: t_sec = t * 60 and total_leak_kg = LEAK_RATE_KG_S * t_sec. -/
def total_leak_kg (t : ℚ) : ℚ := LEAK_RATE_KG_S * (t * 60)

/-- Combustible mass, src/app.py line 146. -/
def M_comb (t : ℚ) : ℚ := total_leak_kg t * COMBUSTIBLE_FRACTION

/-- TNT equivalent mass, src/app.py line 147. -/
def W_tnt (t : ℚ) : ℚ :=
  VCE_EFFICIENCY * M_comb t * COMBUSTION_HEAT_LNG / EXPLOSION_HEAT_TNT

/-- Cube root of the TNT equivalent mass, src/app.py line 148
(W_tnt ** (1/3), a real power of a positive float). -/
noncomputable def w_tnt_root (t : ℚ) : ℝ := (W_tnt t : ℝ) ^ ((1 : ℝ) / 3)

/-- The state computation of src/app.py lines 112-173 (calculate_complex_state,
identical physics in app02.py lines 40-97).  The branch condition is the
source condition t >= 10; the non-explosion branch fills max_conc and the
danger level from the source chain t < 3, t < 5, else. -/
noncomputable def calculate_complex_state (t : ℚ) : ComplexState :=
  if 10 ≤ t then
    { area := interpArea t
      H_cloud := cloudHeight t
      total_leak_kg := total_leak_kg t
      explosion := some
        { W_tnt := W_tnt t
          R_400kpa := 0.29 * w_tnt_root t
          R_100kpa := 0.62 * w_tnt_root t
          R_50kpa := 0.98 * w_tnt_root t }
      max_conc := none
      status := Status.explosion
      danger_level := DangerLevel.catastrophic }
  else
    { area := interpArea t
      H_cloud := cloudHeight t
      total_leak_kg := total_leak_kg t
      explosion := none
      max_conc := some (if t < 3 then "1%-3%" else if t < 5 then "5% (LFL)" else "5%-15%")
      status := Status.leaking
      danger_level :=
        if t < 3 then DangerLevel.low
        else if t < 5 then DangerLevel.medium
        else DangerLevel.high }

/-- The state dictionary returned by calculate_state, src/app03.py
lines 41-86.  It has no explosion-only keys; is_leaking records the
boolean set on lines 63 and 67. -/
structure State03 where
  area : ℚ
  total_leak_kg : ℚ
  is_leaking : Bool
  max_conc : String
  status : Status
  danger_level : DangerLevel

/-- The state computation of src/app03.py lines 41-86 (calculate_state):
leak rate 0.8 * 60 kg per minute, accumulation frozen after t = 10, status
switches on the condition t <= 10, while max_conc and danger level come
from the separate chain t < 3, t < 5, t < 10, else. -/
def calculate_state (t : ℚ) : State03 :=
  { area := interpArea t
    total_leak_kg := if t ≤ 10 then (0.8 * 60) * t else (0.8 * 60) * 10
    is_leaking := decide (t ≤ 10)
    max_conc :=
      if t < 3 then "1%-3%"
      else if t < 5 then "5% (LFL)"
      else if t < 10 then "5%-15%"
      else ">12% (爆燃)"
    status := if t ≤ 10 then Status.leaking else Status.explosion
    danger_level :=
      if t < 3 then DangerLevel.low
      else if t < 5 then DangerLevel.medium
      else if t < 10 then DangerLevel.high
      else DangerLevel.catastrophic }

/-- Helper equations: the area field of the complex state is the shared
interpolation, whichever branch is taken. -/
theorem ccs_area (t : ℚ) : (calculate_complex_state t).area = interpArea t := by
  unfold calculate_complex_state
  split_ifs <;> rfl

/-- The cloud-height field of the complex state is the shared height model. -/
theorem ccs_height (t : ℚ) : (calculate_complex_state t).H_cloud = cloudHeight t := by
  unfold calculate_complex_state
  split_ifs <;> rfl

/-- The leaked-mass field of the complex state is 0.8 kg per second times
elapsed seconds, on both branches. -/
theorem ccs_leak (t : ℚ) : (calculate_complex_state t).total_leak_kg = total_leak_kg t := by
  unfold calculate_complex_state
  split_ifs <;> rfl

/-- The TNT equivalent mass evaluates to 4 t. -/
theorem W_tnt_eq (t : ℚ) : W_tnt t = 4 * t := by
  unfold W_tnt M_comb total_leak_kg VCE_EFFICIENCY LEAK_RATE_KG_S
    COMBUSTIBLE_FRACTION COMBUSTION_HEAT_LNG EXPLOSION_HEAT_TNT
  ring

/-- The leaked mass of calculate_complex_state evaluates to 48 t. -/
theorem total_leak_eq (t : ℚ) : total_leak_kg t = 48 * t := by
  unfold total_leak_kg LEAK_RATE_KG_S
  ring

/-- On the explosion branch the complex state carries exactly the record
built from W_tnt and the three scaled cube roots. -/
theorem ccs_explosion_of_ge (t : ℚ) (h : 10 ≤ t) :
    (calculate_complex_state t).explosion =
      some { W_tnt := W_tnt t
             R_400kpa := 0.29 * w_tnt_root t
             R_100kpa := 0.62 * w_tnt_root t
             R_50kpa := 0.98 * w_tnt_root t } := by
  unfold calculate_complex_state
  rw [if_pos h]

/-- Before the explosion threshold no explosion entry is present. -/
theorem ccs_explosion_of_lt (t : ℚ) (h : t < 10) :
    (calculate_complex_state t).explosion = none := by
  unfold calculate_complex_state
  rw [if_neg (not_le.mpr h)]

/-- The status of the complex state on the explosion branch. -/
theorem ccs_status_of_ge (t : ℚ) (h : 10 ≤ t) :
    (calculate_complex_state t).status = Status.explosion := by
  unfold calculate_complex_state
  rw [if_pos h]

/-- The status of the complex state on the dispersion branch. -/
theorem ccs_status_of_lt (t : ℚ) (h : t < 10) :
    (calculate_complex_state t).status = Status.leaking := by
  unfold calculate_complex_state
  rw [if_neg (not_le.mpr h)]

/-- Monotonicity of the shared area interpolation on the nonnegative domain. -/
theorem interpArea_mono (t1 t2 : ℚ) (h0 : 0 ≤ t1) (h12 : t1 ≤ t2) :
    interpArea t1 ≤ interpArea t2 := by
  unfold interpArea
  split_ifs <;> linarith

/-- The shared area interpolation is bounded by the saturation value 1200. -/
theorem interpArea_le (t : ℚ) (h0 : 0 ≤ t) : interpArea t ≤ 1200 := by
  unfold interpArea
  split_ifs <;> linarith

/-- Monotonicity of the shared cloud-height model. -/
theorem cloudHeight_mono (t1 t2 : ℚ) (h0 : 0 ≤ t1) (h12 : t1 ≤ t2) :
    cloudHeight t1 ≤ cloudHeight t2 := by
  unfold cloudHeight
  split_ifs <;> linarith

/-- C1: the claim states that calculate_complex_state freezes the leaked
mass at the explosion threshold; at t = 15 the source instead returns
0.8 * (15 * 60) = 720 kg, not the frozen 0.8 * min 15 10 * 60 = 480 kg. -/
theorem C1_leak_freeze_counterexample :
    (calculate_complex_state 15).total_leak_kg = 720 ∧
    LEAK_RATE_KG_S * min (15 : ℚ) 10 * 60 = 480 ∧
    (720 : ℚ) ≠ 480 := by
  refine ⟨?_, ?_, by norm_num⟩
  · rw [ccs_leak, total_leak_eq]; norm_num
  · rw [min_eq_right (by norm_num : (10 : ℚ) ≤ 15)]
    unfold LEAK_RATE_KG_S
    norm_num

/-- C1 amended: only calculate_state of app03.py freezes the leaked mass at
the threshold, returning 0.8 * 60 * min t 10; calculate_complex_state of
app.py applies no freeze and returns 0.8 * (t * 60) for every t, so its
explosion record at t = 15 is built from a different leaked mass and a
different TNT equivalent (60 kg versus 40 kg) than at t = 10. -/
theorem C1_leak_formulas :
    (∀ t : ℚ, (calculate_state t).total_leak_kg = 0.8 * 60 * min t 10) ∧
    (∀ t : ℚ, (calculate_complex_state t).total_leak_kg = LEAK_RATE_KG_S * (t * 60)) ∧
    (∃ e15 e10 : ExplosionData,
      (calculate_complex_state 15).explosion = some e15 ∧
      (calculate_complex_state 10).explosion = some e10 ∧
      e15.W_tnt = 60 ∧ e10.W_tnt = 40 ∧ e15.W_tnt ≠ e10.W_tnt) := by
  refine ⟨?_, ?_, ?_⟩
  · intro t
    by_cases h : t ≤ 10
    · show (if t ≤ 10 then (0.8 * 60) * t else (0.8 * 60) * 10) = 0.8 * 60 * min t 10
      rw [if_pos h, min_eq_left h]
    · show (if t ≤ 10 then (0.8 * 60) * t else (0.8 * 60) * 10) = 0.8 * 60 * min t 10
      rw [if_neg h, min_eq_right (le_of_not_le h)]
  · intro t
    rw [ccs_leak]; rfl
  · refine ⟨_, _, ccs_explosion_of_ge 15 (by norm_num),
      ccs_explosion_of_ge 10 (by norm_num), ?_, ?_, ?_⟩
    · show W_tnt 15 = 60
      rw [W_tnt_eq]; norm_num
    · show W_tnt 10 = 40
      rw [W_tnt_eq]; norm_num
    · show W_tnt 15 ≠ W_tnt 10
      rw [W_tnt_eq, W_tnt_eq]; norm_num

/-- C2: the claim covers calculate_state of app03.py as well, but there the
branch condition is t <= 10 for the leaking status, so at exactly t = 10
the returned status is still the leaking one, not the explosion one. -/
theorem C2_status_counterexample :
    (10 : ℚ) ≥ 10 ∧ (calculate_state 10).status ≠ Status.explosion := by
  refine ⟨le_refl 10, ?_⟩
  show (if (10 : ℚ) ≤ 10 then Status.leaking else Status.explosion) ≠ Status.explosion
  rw [if_pos (le_refl (10 : ℚ))]
  exact fun h => Status.noConfusion h

/-- C2 amended: for calculate_complex_state the status is the explosion one
and the explosion-only fields are present exactly when 10 <= t; for
calculate_state of app03.py the explosion status appears exactly when
10 < t, and at t = 10 the state still reports leaking although its danger
level is already the catastrophic one. -/
theorem C2_explosion_iff :
    (∀ t : ℚ, (calculate_complex_state t).status = Status.explosion ↔ 10 ≤ t) ∧
    (∀ t : ℚ, (calculate_complex_state t).explosion.isSome ↔ 10 ≤ t) ∧
    (∀ t : ℚ, (calculate_state t).status = Status.explosion ↔ 10 < t) ∧
    (calculate_state 10).status = Status.leaking ∧
    (calculate_state 10).danger_level = DangerLevel.catastrophic := by
  refine ⟨?_, ?_, ?_, ?_, ?_⟩
  · intro t
    constructor
    · intro h
      by_contra hlt
      rw [ccs_status_of_lt t (lt_of_not_le hlt)] at h
      exact Status.noConfusion h
    · intro h
      exact ccs_status_of_ge t h
  · intro t
    constructor
    · intro h
      by_contra hlt
      rw [ccs_explosion_of_lt t (lt_of_not_le hlt)] at h
      simp at h
    · intro h
      rw [ccs_explosion_of_ge t h]
      rfl
  · intro t
    show (if t ≤ 10 then Status.leaking else Status.explosion) = Status.explosion ↔ 10 < t
    by_cases h : t ≤ 10
    · rw [if_pos h]
      constructor
      · intro hc; exact absurd hc (fun hc => Status.noConfusion hc)
      · intro hlt; exact absurd h (not_le.mpr hlt)
    · rw [if_neg h]
      exact iff_of_true rfl (lt_of_not_le h)
  · show (if (10 : ℚ) ≤ 10 then Status.leaking else Status.explosion) = Status.leaking
    rw [if_pos (le_refl (10 : ℚ))]
  · show (if (10 : ℚ) < 3 then DangerLevel.low
      else if (10 : ℚ) < 5 then DangerLevel.medium
      else if (10 : ℚ) < 10 then DangerLevel.high
      else DangerLevel.catastrophic) = DangerLevel.catastrophic
    norm_num

/-- C10: the two leak-accumulation formulas of the simulator variants agree
on the interval from 0 to 10, where both return 48 t, and disagree beyond
the threshold, witnessed at t = 15 where app.py returns 720 and app03.py
returns 480. -/
theorem C10_leak_divergence :
    (∃ t : ℚ, 0 ≤ t ∧
      (calculate_complex_state t).total_leak_kg ≠ (calculate_state t).total_leak_kg) ∧
    (∀ t : ℚ, 0 ≤ t → t ≤ 10 →
      (calculate_complex_state t).total_leak_kg = 48 * t ∧
      (calculate_state t).total_leak_kg = 48 * t) := by
  constructor
  · refine ⟨15, by norm_num, ?_⟩
    rw [ccs_leak, total_leak_eq]
    show (48 : ℚ) * 15 ≠ if (15 : ℚ) ≤ 10 then (0.8 * 60) * 15 else (0.8 * 60) * 10
    rw [if_neg (by norm_num : ¬ (15 : ℚ) ≤ 10)]
    norm_num
  · intro t h0 h10
    constructor
    · rw [ccs_leak, total_leak_eq]
    · show (if t ≤ 10 then (0.8 * 60) * t else (0.8 * 60) * 10) = 48 * t
      rw [if_pos h10]
      norm_num

/-- C3: whenever 10 <= t the complex state carries an explosion record whose
radii are 0.29, 0.62 and 0.98 times the cube root of the TNT equivalent
mass, and they are strictly ordered with the 50 kPa radius largest and all
positive. -/
theorem C3_blast_radii (t : ℚ) (h : 10 ≤ t) :
    ∃ e : ExplosionData, (calculate_complex_state t).explosion = some e ∧
      e.R_400kpa = 0.29 * (e.W_tnt : ℝ) ^ ((1 : ℝ) / 3) ∧
      e.R_100kpa = 0.62 * (e.W_tnt : ℝ) ^ ((1 : ℝ) / 3) ∧
      e.R_50kpa = 0.98 * (e.W_tnt : ℝ) ^ ((1 : ℝ) / 3) ∧
      e.R_50kpa > e.R_100kpa ∧ e.R_100kpa > e.R_400kpa ∧ e.R_400kpa > 0 := by
  have hW : (0 : ℚ) < W_tnt t := by rw [W_tnt_eq]; linarith
  have hr : (0 : ℝ) < w_tnt_root t := by
    unfold w_tnt_root
    exact Real.rpow_pos_of_pos (by exact_mod_cast hW) _
  refine ⟨_, ccs_explosion_of_ge t h, rfl, rfl, rfl, ?_, ?_, ?_⟩
  · exact mul_lt_mul_of_pos_right (by norm_num) hr
  · exact mul_lt_mul_of_pos_right (by norm_num) hr
  · exact mul_pos (by norm_num) hr

/-- C3 witness at the threshold itself. -/
theorem C3_blast_radii_witness :
    ∃ e : ExplosionData, (calculate_complex_state 10).explosion = some e ∧
      e.R_400kpa = 0.29 * (e.W_tnt : ℝ) ^ ((1 : ℝ) / 3) ∧
      e.R_100kpa = 0.62 * (e.W_tnt : ℝ) ^ ((1 : ℝ) / 3) ∧
      e.R_50kpa = 0.98 * (e.W_tnt : ℝ) ^ ((1 : ℝ) / 3) ∧
      e.R_50kpa > e.R_100kpa ∧ e.R_100kpa > e.R_400kpa ∧ e.R_400kpa > 0 :=
  C3_blast_radii 10 (by norm_num)

/-- C4: the cloud area of calculate_complex_state is the piecewise-linear
interpolation over the breakpoints 0, 1, 3, 5, 10 with values 0, 20, 400,
800, 1200, each segment taken with the closed-upper convention, it is
20 t on the first segment, takes the listed breakpoint values, and holds
at 1200 beyond the threshold. -/
theorem C4_area_interpolation :
    (∀ t : ℚ, 0 ≤ t → t ≤ 1 → (calculate_complex_state t).area = 20 * t) ∧
    (∀ t : ℚ, 1 < t → t ≤ 3 →
      (calculate_complex_state t).area = 20 + (400 - 20) * (t - 1) / (3 - 1)) ∧
    (∀ t : ℚ, 3 < t → t ≤ 5 →
      (calculate_complex_state t).area = 400 + (800 - 400) * (t - 3) / (5 - 3)) ∧
    (∀ t : ℚ, 5 < t → t ≤ 10 →
      (calculate_complex_state t).area = 800 + (1200 - 800) * (t - 5) / (10 - 5)) ∧
    (∀ t : ℚ, 10 < t → (calculate_complex_state t).area = 1200) ∧
    (calculate_complex_state 1).area = 20 ∧
    (calculate_complex_state 3).area = 400 ∧
    (calculate_complex_state 5).area = 800 ∧
    (calculate_complex_state 10).area = 1200 := by
  refine ⟨?_, ?_, ?_, ?_, ?_, ?_, ?_, ?_, ?_⟩
  · intro t h0 h1
    rw [ccs_area]; unfold interpArea
    rw [if_pos h1]
  · intro t h1 h3
    rw [ccs_area]; unfold interpArea
    rw [if_neg (not_le.mpr h1), if_pos h3]
    norm_num
  · intro t h3 h5
    rw [ccs_area]; unfold interpArea
    rw [if_neg (by linarith : ¬ t ≤ 1), if_neg (not_le.mpr h3), if_pos h5]
    norm_num
  · intro t h5 h10
    rw [ccs_area]; unfold interpArea
    rw [if_neg (by linarith : ¬ t ≤ 1), if_neg (by linarith : ¬ t ≤ 3),
      if_neg (not_le.mpr h5), if_pos h10]
    norm_num
  · intro t h10
    rw [ccs_area]; unfold interpArea
    rw [if_neg (by linarith : ¬ t ≤ 1), if_neg (by linarith : ¬ t ≤ 3),
      if_neg (by linarith : ¬ t ≤ 5), if_neg (not_le.mpr h10)]
  · rw [ccs_area]; norm_num [interpArea]
  · rw [ccs_area]; norm_num [interpArea]
  · rw [ccs_area]; norm_num [interpArea]
  · rw [ccs_area]; norm_num [interpArea]

/-- C5: the cloud area of calculate_complex_state is non-decreasing on the
nonnegative domain and bounded above by the saturation constant 1200. -/
theorem C5_area_monotone_bounded :
    (∀ t1 t2 : ℚ, 0 ≤ t1 → t1 ≤ t2 →
      (calculate_complex_state t1).area ≤ (calculate_complex_state t2).area) ∧
    (∀ t : ℚ, 0 ≤ t → (calculate_complex_state t).area ≤ 1200) := by
  constructor
  · intro t1 t2 h0 h12
    rw [ccs_area, ccs_area]
    exact interpArea_mono t1 t2 h0 h12
  · intro t h
    rw [ccs_area]
    exact interpArea_le t h

/-- C6: the cloud height of calculate_complex_state follows the three
branch formulas, the adjacent branch formulas agree at the joints t = 5
(both 3.0) and t = 10 (both 4.0), the function is non-decreasing on the
nonnegative domain and constant 4.0 beyond t = 10. -/
theorem C6_cloud_height :
    (∀ t : ℚ, 0 ≤ t → t < 5 → (calculate_complex_state t).H_cloud = 0.5 + 0.5 * t) ∧
    (∀ t : ℚ, 5 ≤ t → t ≤ 10 → (calculate_complex_state t).H_cloud = 3.0 + 0.2 * (t - 5)) ∧
    (∀ t : ℚ, 10 < t → (calculate_complex_state t).H_cloud = 4.0) ∧
    (0.5 + 0.5 * (5 : ℚ) = 3.0 + 0.2 * ((5 : ℚ) - 5) ∧ (calculate_complex_state 5).H_cloud = 3) ∧
    (3.0 + 0.2 * ((10 : ℚ) - 5) = (4.0 : ℚ) ∧ (calculate_complex_state 10).H_cloud = 4) ∧
    (∀ t1 t2 : ℚ, 0 ≤ t1 → t1 ≤ t2 →
      (calculate_complex_state t1).H_cloud ≤ (calculate_complex_state t2).H_cloud) := by
  refine ⟨?_, ?_, ?_, ⟨by norm_num, ?_⟩, ⟨by norm_num, ?_⟩, ?_⟩
  · intro t h0 h5
    rw [ccs_height]; unfold cloudHeight
    rw [if_pos h5]
  · intro t h5 h10
    rw [ccs_height]; unfold cloudHeight
    rw [if_neg (not_lt.mpr h5), if_pos h10]
  · intro t h10
    rw [ccs_height]; unfold cloudHeight
    rw [if_neg (by linarith : ¬ t < 5), if_neg (not_le.mpr h10)]
  · rw [ccs_height]; norm_num [cloudHeight]
  · rw [ccs_height]; norm_num [cloudHeight]
  · intro t1 t2 h0 h12
    rw [ccs_height, ccs_height]
    exact cloudHeight_mono t1 t2 h0 h12

/-- C7: the claim states that negative inputs are rejected, but the source
has no validation at all: at t = -1 calculate_complex_state returns an
ordinary dispersion state whose fields are computed from the same formulas
(area -20, leaked mass -48), neither an error nor a clamped value. -/
theorem C7_no_rejection_counterexample :
    (calculate_complex_state (-1)).status = Status.leaking ∧
    (calculate_complex_state (-1)).explosion = none ∧
    (calculate_complex_state (-1)).area = -20 ∧
    (calculate_complex_state (-1)).total_leak_kg = -48 := by
  refine ⟨ccs_status_of_lt (-1) (by norm_num), ccs_explosion_of_lt (-1) (by norm_num), ?_, ?_⟩
  · rw [ccs_area]; norm_num [interpArea]
  · rw [ccs_leak, total_leak_eq]; norm_num

/-- C7 amended: calculate_complex_state performs no domain validation; for
every negative t it returns an ordinary dispersion state computed from the
same piecewise formulas, with area 20 t and leaked mass 0.8 * (t * 60),
so the input is neither rejected nor clamped into the valid domain. -/
theorem C7_negative_input_behavior (t : ℚ) (h : t < 0) :
    (calculate_complex_state t).status = Status.leaking ∧
    (calculate_complex_state t).explosion = none ∧
    (calculate_complex_state t).area = 20 * t ∧
    (calculate_complex_state t).total_leak_kg = LEAK_RATE_KG_S * (t * 60) := by
  refine ⟨ccs_status_of_lt t (by linarith), ccs_explosion_of_lt t (by linarith), ?_, ccs_leak t⟩
  rw [ccs_area]; unfold interpArea
  rw [if_pos (by linarith : t ≤ 1)]

/-- C7 witness: the amended behavior evaluated at t = -2. -/
theorem C7_negative_input_witness :
    (calculate_complex_state (-2)).status = Status.leaking ∧
    (calculate_complex_state (-2)).explosion = none ∧
    (calculate_complex_state (-2)).area = 20 * (-2) ∧
    (calculate_complex_state (-2)).total_leak_kg = LEAK_RATE_KG_S * ((-2) * 60) :=
  C7_negative_input_behavior (-2) (by norm_num)

/-- Three-component real vector, the numpy arrays of src/app02.py. -/
@[ext]
structure Vec3 where
  x : ℝ
  y : ℝ
  z : ℝ

/-- Componentwise difference, the array subtraction of src/app02.py line 102. -/
noncomputable def vsub (a b : Vec3) : Vec3 := ⟨a.x - b.x, a.y - b.y, a.z - b.z⟩

/-- Euclidean dot product of two vectors. -/
noncomputable def dot (a b : Vec3) : ℝ := a.x * b.x + a.y * b.y + a.z * b.z

/-- Cross product, np.cross of src/app02.py lines 111 and 113. -/
noncomputable def cross (a b : Vec3) : Vec3 :=
  ⟨a.y * b.z - a.z * b.y, a.z * b.x - a.x * b.z, a.x * b.y - a.y * b.x⟩

/-- Euclidean norm, np.linalg.norm of src/app02.py lines 103 and 112. -/
noncomputable def norm3 (a : Vec3) : ℝ := Real.sqrt (dot a a)

/-- Scalar multiple of a vector; division of a vector by a scalar is the
multiple by its inverse. -/
noncomputable def smul3 (c : ℝ) (a : Vec3) : Vec3 := ⟨c * a.x, c * a.y, c * a.z⟩

/-- The default reference vector (1, 0, 0) of src/app02.py line 108. -/
noncomputable def e1 : Vec3 := ⟨1, 0, 0⟩

/-- The alternate reference vector (0, 1, 0) of src/app02.py line 109. -/
noncomputable def e2 : Vec3 := ⟨0, 1, 0⟩

/-- The zero vector. -/
noncomputable def vzero : Vec3 := ⟨0, 0, 0⟩

/-- The orthogonal frame plot_cylinder derives: the unit axis v and the two
sweep directions n1 and n2 of src/app02.py lines 105-113. -/
structure Frame where
  v : Vec3
  n1 : Vec3
  n2 : Vec3

/-- Unit axis vector v = (p1 - p0) / mag, src/app02.py lines 102-105. -/
noncomputable def pipeAxis (p0 p1 : Vec3) : Vec3 :=
  smul3 (1 / norm3 (vsub p1 p0)) (vsub p1 p0)

open Classical in
/-- Reference choice of src/app02.py lines 108-109: not_v starts as (1,0,0)
and is swapped to (0,1,0) only when v is equal to (1,0,0) componentwise. -/
noncomputable def refVec (v : Vec3) : Vec3 :=
  if v = e1 then e2 else e1

/-- Normalized first frame vector n1 = cross(v, not_v) / |cross(v, not_v)|,
src/app02.py lines 111-112. -/
noncomputable def pipeN1 (v : Vec3) : Vec3 :=
  smul3 (1 / norm3 (cross v (refVec v))) (cross v (refVec v))

open Classical in
/-- The frame computation of plot_cylinder, src/app02.py lines 101-113: on a
zero-length axis (mag == 0, in particular p0 = p1) the function returns
without emitting a primitive; otherwise it derives v, n1 and n2 = cross(v, n1). -/
noncomputable def plot_cylinder (p0 p1 : Vec3) : Option Frame :=
  if norm3 (vsub p1 p0) = 0 then none
  else some
    { v := pipeAxis p0 p1
      n1 := pipeN1 (pipeAxis p0 p1)
      n2 := cross (pipeAxis p0 p1) (pipeN1 (pipeAxis p0 p1)) }

/-- The dot square of a vector is nonnegative. -/
theorem dot_self_nonneg (a : Vec3) : 0 ≤ dot a a := by
  unfold dot
  nlinarith [mul_self_nonneg a.x, mul_self_nonneg a.y, mul_self_nonneg a.z]

/-- The dot square vanishes exactly on the zero vector. -/
theorem dot_self_eq_zero (a : Vec3) : dot a a = 0 ↔ a = vzero := by
  constructor
  · intro h
    unfold dot at h
    have hx : a.x = 0 := by nlinarith [mul_self_nonneg a.x, mul_self_nonneg a.y, mul_self_nonneg a.z]
    have hy : a.y = 0 := by nlinarith [mul_self_nonneg a.x, mul_self_nonneg a.y, mul_self_nonneg a.z]
    have hz : a.z = 0 := by nlinarith [mul_self_nonneg a.x, mul_self_nonneg a.y, mul_self_nonneg a.z]
    ext <;> simp [vzero, hx, hy, hz]
  · intro h
    subst h
    unfold dot vzero
    norm_num

/-- The dot square of a nonzero vector is positive. -/
theorem dot_self_pos (a : Vec3) (h : a ≠ vzero) : 0 < dot a a :=
  lt_of_le_of_ne (dot_self_nonneg a) (fun he => h ((dot_self_eq_zero a).mp he.symm))

/-- The norm vanishes exactly on the zero vector. -/
theorem norm3_eq_zero (a : Vec3) : norm3 a = 0 ↔ a = vzero := by
  unfold norm3
  rw [Real.sqrt_eq_zero (dot_self_nonneg a)]
  exact dot_self_eq_zero a

/-- The square of the norm recovers the dot square. -/
theorem norm3_mul_self (a : Vec3) : norm3 a * norm3 a = dot a a :=
  Real.mul_self_sqrt (dot_self_nonneg a)

/-- A vector of dot square one has norm one. -/
theorem norm3_one_of_dot (a : Vec3) (h : dot a a = 1) : norm3 a = 1 := by
  unfold norm3
  rw [h]
  exact Real.sqrt_one

/-- Bilinearity of the dot product under scalar multiples. -/
theorem dot_smul3 (c d : ℝ) (a b : Vec3) :
    dot (smul3 c a) (smul3 d b) = c * d * dot a b := by
  unfold dot smul3
  ring

/-- A scalar multiple in the left argument of the dot product. -/
theorem dot_smul3_right (c : ℝ) (a b : Vec3) :
    dot a (smul3 c b) = c * dot a b := by
  unfold dot smul3
  ring

/-- The cross product is orthogonal to its first factor. -/
theorem dot_cross_left (a b : Vec3) : dot a (cross a b) = 0 := by
  unfold dot cross
  ring

/-- The cross product is orthogonal to its second factor. -/
theorem dot_cross_right (a b : Vec3) : dot b (cross a b) = 0 := by
  unfold dot cross
  ring

/-- Lagrange identity for the dot square of a cross product. -/
theorem dot_cross_self (a b : Vec3) :
    dot (cross a b) (cross a b) = dot a a * dot b b - dot a b * dot a b := by
  unfold dot cross
  ring

/-- The derived pipe axis has dot square one whenever the endpoints differ. -/
theorem pipeAxis_unit (p0 p1 : Vec3) (h : vsub p1 p0 ≠ vzero) :
    dot (pipeAxis p0 p1) (pipeAxis p0 p1) = 1 := by
  unfold pipeAxis
  rw [dot_smul3]
  have hd : 0 < dot (vsub p1 p0) (vsub p1 p0) := dot_self_pos _ h
  have hs : norm3 (vsub p1 p0) * norm3 (vsub p1 p0) = dot (vsub p1 p0) (vsub p1 p0) :=
    norm3_mul_self _
  have hcalc : 1 / norm3 (vsub p1 p0) * (1 / norm3 (vsub p1 p0)) *
      dot (vsub p1 p0) (vsub p1 p0) =
      dot (vsub p1 p0) (vsub p1 p0) /
        (norm3 (vsub p1 p0) * norm3 (vsub p1 p0)) := by
    ring
  rw [hcalc, hs, div_self (ne_of_gt hd)]

/-- With a unit axis that is not the exact negation of the default
reference, the cross product against the chosen reference is nonzero, which
is exactly the condition for the normalization on line 112 to be sound. -/
theorem cross_ref_ne_zero (v : Vec3) (hv : dot v v = 1)
    (hanti : v ≠ ⟨-1, 0, 0⟩) : cross v (refVec v) ≠ vzero := by
  by_cases h1 : v = e1
  · subst h1
    unfold refVec
    rw [if_pos rfl]
    unfold cross e1 e2 vzero
    intro hc
    have := congrArg Vec3.z hc
    norm_num at this
  · unfold refVec
    rw [if_neg h1]
    intro hc
    have hy : v.y = 0 := by
      have := congrArg Vec3.z hc
      unfold cross e1 vzero at this
      simpa using this
    have hz : v.z = 0 := by
      have := congrArg Vec3.y hc
      unfold cross e1 vzero at this
      simpa using this
    have hx2 : v.x * v.x = 1 := by
      unfold dot at hv
      nlinarith [hv]
    rcases mul_self_eq_one_iff.mp hx2 with hx | hx
    · apply h1
      ext <;> simp [e1, hx, hy, hz]
    · apply hanti
      ext <;> simp [hx, hy, hz]

/-- C8: the claim states that for every pair of distinct endpoints the frame
is well defined, including an axis anti-parallel to the default reference;
but the swap on line 109 of src/app02.py tests exact equality with (1,0,0)
only, so for the axis (-1,0,0) the reference stays (1,0,0), the cross
product is the zero vector, and the normalized n1 (a zero division, NaN in
numpy) is the zero vector rather than a unit vector, as is n2. -/
theorem C8_antiparallel_counterexample :
    ({ x := 0, y := 0, z := 0 } : Vec3) ≠ ({ x := -1, y := 0, z := 0 } : Vec3) ∧
    plot_cylinder { x := 0, y := 0, z := 0 } { x := -1, y := 0, z := 0 } =
      some { v := { x := -1, y := 0, z := 0 }
             n1 := { x := 0, y := 0, z := 0 }
             n2 := { x := 0, y := 0, z := 0 } } ∧
    norm3 { x := 0, y := 0, z := 0 } = 0 ∧ (0 : ℝ) ≠ 1 := by
  have hsub : vsub { x := -1, y := 0, z := 0 } { x := 0, y := 0, z := 0 } =
      ({ x := -1, y := 0, z := 0 } : Vec3) := by
    unfold vsub
    norm_num
  have hnorm : norm3 { x := -1, y := 0, z := 0 } = 1 := by
    unfold norm3 dot
    rw [show ((-1 : ℝ) * (-1) + 0 * 0 + 0 * 0) = 1 by norm_num]
    exact Real.sqrt_one
  have hzero : norm3 { x := 0, y := 0, z := 0 } = 0 := by
    unfold norm3 dot
    rw [show ((0 : ℝ) * 0 + 0 * 0 + 0 * 0) = 0 by norm_num]
    exact Real.sqrt_zero
  have haxis : pipeAxis { x := 0, y := 0, z := 0 } { x := -1, y := 0, z := 0 } =
      ({ x := -1, y := 0, z := 0 } : Vec3) := by
    unfold pipeAxis
    rw [hsub, hnorm]
    unfold smul3
    norm_num
  have hne1 : ({ x := -1, y := 0, z := 0 } : Vec3) ≠ e1 := by
    intro hc
    have := congrArg Vec3.x hc
    unfold e1 at this
    norm_num at this
  have href : refVec { x := -1, y := 0, z := 0 } = e1 := by
    unfold refVec
    rw [if_neg hne1]
  have hcross : cross { x := -1, y := 0, z := 0 } e1 = ({ x := 0, y := 0, z := 0 } : Vec3) := by
    unfold cross e1
    norm_num
  have hn1 : pipeN1 { x := -1, y := 0, z := 0 } = ({ x := 0, y := 0, z := 0 } : Vec3) := by
    unfold pipeN1
    rw [href, hcross, hzero]
    unfold smul3
    norm_num
  have hcross0 : cross { x := -1, y := 0, z := 0 } { x := 0, y := 0, z := 0 } =
      ({ x := 0, y := 0, z := 0 } : Vec3) := by
    unfold cross
    norm_num
  refine ⟨?_, ?_, hzero, by norm_num⟩
  · intro hc
    have := congrArg Vec3.x hc
    norm_num at this
  · unfold plot_cylinder
    rw [hsub, hnorm, if_neg (by norm_num : (1 : ℝ) ≠ 0), haxis, hn1, hcross0]

/-- C8 amended: plot_cylinder is total and degeneracy-safe for coincident
endpoints, returning the empty primitive, and for every pair of distinct
endpoints whose unit axis is not the exact negation (-1,0,0) of the default
reference, the derived frame consists of finite orthogonal unit vectors;
the anti-parallel axis is the one degenerate direction the reference swap
does not cover. -/
theorem C8_pipe_frame :
    (∀ p : Vec3, plot_cylinder p p = none) ∧
    (∀ p0 p1 : Vec3, vsub p1 p0 ≠ vzero → pipeAxis p0 p1 ≠ ⟨-1, 0, 0⟩ →
      ∃ f : Frame, plot_cylinder p0 p1 = some f ∧
        norm3 f.v = 1 ∧ norm3 f.n1 = 1 ∧ norm3 f.n2 = 1 ∧
        dot f.v f.n1 = 0 ∧ dot f.v f.n2 = 0 ∧ dot f.n1 f.n2 = 0) := by
  constructor
  · intro p
    unfold plot_cylinder
    rw [if_pos]
    rw [norm3_eq_zero]
    unfold vsub vzero
    ext <;> simp
  · intro p0 p1 hne hanti
    have hm : norm3 (vsub p1 p0) ≠ 0 := fun hc => hne ((norm3_eq_zero _).mp hc)
    have hv : dot (pipeAxis p0 p1) (pipeAxis p0 p1) = 1 := pipeAxis_unit p0 p1 hne
    have hcr : cross (pipeAxis p0 p1) (refVec (pipeAxis p0 p1)) ≠ vzero :=
      cross_ref_ne_zero _ hv hanti
    have hcrd : 0 < dot (cross (pipeAxis p0 p1) (refVec (pipeAxis p0 p1)))
        (cross (pipeAxis p0 p1) (refVec (pipeAxis p0 p1))) := dot_self_pos _ hcr
    have hn1unit : dot (pipeN1 (pipeAxis p0 p1)) (pipeN1 (pipeAxis p0 p1)) = 1 := by
      unfold pipeN1
      rw [dot_smul3]
      have hs := norm3_mul_self (cross (pipeAxis p0 p1) (refVec (pipeAxis p0 p1)))
      have hcalc : 1 / norm3 (cross (pipeAxis p0 p1) (refVec (pipeAxis p0 p1))) *
          (1 / norm3 (cross (pipeAxis p0 p1) (refVec (pipeAxis p0 p1)))) *
          dot (cross (pipeAxis p0 p1) (refVec (pipeAxis p0 p1)))
            (cross (pipeAxis p0 p1) (refVec (pipeAxis p0 p1))) =
          dot (cross (pipeAxis p0 p1) (refVec (pipeAxis p0 p1)))
            (cross (pipeAxis p0 p1) (refVec (pipeAxis p0 p1))) /
          (norm3 (cross (pipeAxis p0 p1) (refVec (pipeAxis p0 p1))) *
            norm3 (cross (pipeAxis p0 p1) (refVec (pipeAxis p0 p1)))) := by
        ring
      rw [hcalc, hs, div_self (ne_of_gt hcrd)]
    have hvn1 : dot (pipeAxis p0 p1) (pipeN1 (pipeAxis p0 p1)) = 0 := by
      unfold pipeN1
      rw [dot_smul3_right, dot_cross_left]
      ring
    refine ⟨{ v := pipeAxis p0 p1
              n1 := pipeN1 (pipeAxis p0 p1)
              n2 := cross (pipeAxis p0 p1) (pipeN1 (pipeAxis p0 p1)) },
      ?_, ?_, ?_, ?_, hvn1, dot_cross_left _ _, dot_cross_right _ _⟩
    · unfold plot_cylinder
      rw [if_neg hm]
    · exact norm3_one_of_dot _ hv
    · exact norm3_one_of_dot _ hn1unit
    · apply norm3_one_of_dot
      rw [dot_cross_self, hv, hn1unit, hvn1]
      ring

/-- Truncation toward zero, the int() conversion Python applies to the
float point counts. -/
def pytrunc (q : ℚ) : ℤ := if q < 0 then Int.ceil q else Int.floor q

/-- One scatter band of the dispersion point cloud: how many points and
which opacity the corresponding ax.scatter call uses. -/
structure Band where
  count : ℤ
  alpha : ℚ
deriving DecidableEq

/-- The dispersion point-cloud emission of draw_complex_3d_simulation_plot,
src/app.py lines 243-263, reduced to its deterministic band structure: for
t < 10, and only when area > 1, two scatter calls are made, the wide
low-opacity diffusion band with int(area * 2) points at opacity 0.3 and
the tight high-opacity accumulation band with num_points // 5 points at
opacity 0.6; otherwise no point cloud is emitted. -/
def draw_dispersion (t : ℚ) (s : ComplexState) : List Band :=
  if t < 10 then
    if 1 < s.area then
      [{ count := pytrunc (s.area * 2), alpha := 0.3 },
       { count := Int.fdiv (pytrunc (s.area * 2)) 5, alpha := 0.6 }]
    else []
  else []

/-- The dispersion emission of the refined variant, src/app02.py
lines 238-264: under the same guards it emits three bands, the outer one
with int(area * 3) points at opacity 0.1, the middle one with half as many
points at opacity 0.2, and the accumulation band with a fifth as many
points at opacity 0.7. -/
def draw_dispersion02 (t : ℚ) (s : ComplexState) : List Band :=
  if t < 10 then
    if 1 < s.area then
      [{ count := pytrunc (s.area * 3), alpha := 0.1 },
       { count := Int.fdiv (pytrunc (s.area * 3)) 2, alpha := 0.2 },
       { count := Int.fdiv (pytrunc (s.area * 3)) 5, alpha := 0.7 }]
    else []
  else []

/-- Base radius of the dispersion cloud, src/app.py line 248:
sqrt(area / pi) * 0.8. -/
noncomputable def radius_base (s : ComplexState) : ℝ :=
  Real.sqrt ((s.area : ℝ) / Real.pi) * 0.8

/-- Base radius of the refined variant, src/app02.py line 243:
sqrt(area / pi) * 0.9. -/
noncomputable def radius_base02 (s : ComplexState) : ℝ :=
  Real.sqrt ((s.area : ℝ) / Real.pi) * 0.9

/-- Truncation toward zero is monotone. -/
theorem pytrunc_mono (a b : ℚ) (h : a ≤ b) : pytrunc a ≤ pytrunc b := by
  unfold pytrunc
  split_ifs with h1 h2
  · exact Int.ceil_mono h
  · calc Int.ceil a ≤ Int.ceil (0 : ℚ) := Int.ceil_mono (le_of_lt h1)
      _ = 0 := Int.ceil_zero
      _ ≤ Int.floor b := Int.floor_nonneg.mpr (not_lt.mp h2)
  · exact absurd (lt_of_le_of_lt h (by assumption)) h1
  · exact Int.floor_mono h

/-- C9: the claim states that a dispersion point cloud is emitted for every
state before the explosion phase, but the source guards the scatter calls
with area > 1; at t = 0 the area is 0, the state is a pre-explosion one,
and both variants emit no point cloud at all. -/
theorem C9_no_cloud_counterexample :
    (0 : ℚ) ≤ 0 ∧ (0 : ℚ) < 10 ∧
    (calculate_complex_state 0).status = Status.leaking ∧
    draw_dispersion 0 (calculate_complex_state 0) = [] ∧
    draw_dispersion02 0 (calculate_complex_state 0) = [] := by
  have ha : (calculate_complex_state 0).area = 0 := by
    rw [ccs_area]; norm_num [interpArea]
  refine ⟨le_refl 0, by norm_num, ccs_status_of_lt 0 (by norm_num), ?_, ?_⟩
  · unfold draw_dispersion
    rw [if_pos (by norm_num : (0 : ℚ) < 10), if_neg (by rw [ha]; norm_num)]
  · unfold draw_dispersion02
    rw [if_pos (by norm_num : (0 : ℚ) < 10), if_neg (by rw [ha]; norm_num)]

/-- C9 amended: for every pre-explosion time whose cloud area exceeds the
guard value 1, the builder emits the layered point cloud with two bands
(three in the refined variant), the wide band at low opacity with
int(area * 2) points and the accumulation band at higher opacity with a
fifth as many points; the point count is monotone in the area and the base
radius is 0.8 times the square root of area over pi, monotone in the area
as well. -/
theorem C9_dispersion_bands :
    (∀ t : ℚ, 0 ≤ t → t < 10 → 1 < (calculate_complex_state t).area →
      draw_dispersion t (calculate_complex_state t) =
        [{ count := pytrunc ((calculate_complex_state t).area * 2), alpha := 0.3 },
         { count := Int.fdiv (pytrunc ((calculate_complex_state t).area * 2)) 5, alpha := 0.6 }] ∧
      2 ≤ (draw_dispersion t (calculate_complex_state t)).length ∧
      2 ≤ (draw_dispersion02 t (calculate_complex_state t)).length) ∧
    (∀ s : ComplexState, radius_base s = 0.8 * Real.sqrt ((s.area : ℝ) / Real.pi)) ∧
    (∀ s1 s2 : ComplexState, s1.area ≤ s2.area →
      pytrunc (s1.area * 2) ≤ pytrunc (s2.area * 2) ∧ radius_base s1 ≤ radius_base s2) := by
  refine ⟨?_, ?_, ?_⟩
  · intro t h0 h10 ha
    refine ⟨?_, ?_, ?_⟩
    · unfold draw_dispersion
      rw [if_pos h10, if_pos ha]
    · unfold draw_dispersion
      rw [if_pos h10, if_pos ha]
      norm_num
    · unfold draw_dispersion02
      rw [if_pos h10, if_pos ha]
      norm_num
  · intro s
    unfold radius_base
    ring
  · intro s1 s2 h
    constructor
    · exact pytrunc_mono _ _ (by linarith)
    · unfold radius_base
      have hdiv : (s1.area : ℝ) / Real.pi ≤ (s2.area : ℝ) / Real.pi :=
        (div_le_div_iff_of_pos_right Real.pi_pos).mpr (by exact_mod_cast h)
      exact mul_le_mul_of_nonneg_right (Real.sqrt_le_sqrt hdiv) (by norm_num)

/-- C1 witness: the frozen formula of app03.py evaluated at t = 15. -/
theorem C1_leak_formulas_witness :
    (calculate_state 15).total_leak_kg = 0.8 * 60 * min (15 : ℚ) 10 :=
  C1_leak_formulas.1 15

/-- C2 witness: the explosion status equivalence evaluated at t = 12. -/
theorem C2_explosion_iff_witness :
    (calculate_complex_state 12).status = Status.explosion ↔ (10 : ℚ) ≤ 12 :=
  C2_explosion_iff.1 12

/-- C4 witness: the first-segment formula evaluated at t = 1/2. -/
theorem C4_area_interpolation_witness :
    (calculate_complex_state (1 / 2)).area = 20 * (1 / 2) :=
  C4_area_interpolation.1 (1 / 2) (by norm_num) (by norm_num)

/-- C5 witness: monotonicity between t = 2 and t = 7 and the bound at t = 7. -/
theorem C5_area_monotone_bounded_witness :
    (calculate_complex_state 2).area ≤ (calculate_complex_state 7).area ∧
    (calculate_complex_state 7).area ≤ 1200 :=
  ⟨C5_area_monotone_bounded.1 2 7 (by norm_num) (by norm_num),
   C5_area_monotone_bounded.2 7 (by norm_num)⟩

/-- C6 witness: the first-branch formula evaluated at t = 2. -/
theorem C6_cloud_height_witness :
    (calculate_complex_state 2).H_cloud = 0.5 + 0.5 * 2 :=
  C6_cloud_height.1 2 (by norm_num) (by norm_num)

/-- C8 witness: the degenerate call and a vertical pipe from the origin. -/
theorem C8_pipe_frame_witness :
    plot_cylinder vzero vzero = none ∧
    (∃ f : Frame, plot_cylinder { x := 0, y := 0, z := 0 } { x := 0, y := 0, z := 1 } = some f ∧
      norm3 f.v = 1 ∧ norm3 f.n1 = 1 ∧ norm3 f.n2 = 1 ∧
      dot f.v f.n1 = 0 ∧ dot f.v f.n2 = 0 ∧ dot f.n1 f.n2 = 0) := by
  constructor
  · exact C8_pipe_frame.1 vzero
  · refine C8_pipe_frame.2 { x := 0, y := 0, z := 0 } { x := 0, y := 0, z := 1 } ?_ ?_
    · intro hc
      have := congrArg Vec3.z hc
      unfold vsub vzero at this
      norm_num at this
    · intro hc
      have := congrArg Vec3.x hc
      unfold pipeAxis smul3 vsub at this
      norm_num at this

/-- C9 witness: the two-band emission evaluated at t = 1 where the area is 20. -/
theorem C9_dispersion_bands_witness :
    draw_dispersion 1 (calculate_complex_state 1) =
      [{ count := pytrunc ((calculate_complex_state 1).area * 2), alpha := 0.3 },
       { count := Int.fdiv (pytrunc ((calculate_complex_state 1).area * 2)) 5, alpha := 0.6 }] ∧
    2 ≤ (draw_dispersion 1 (calculate_complex_state 1)).length ∧
    2 ≤ (draw_dispersion02 1 (calculate_complex_state 1)).length :=
  C9_dispersion_bands.1 1 (by norm_num) (by norm_num)
    (by rw [ccs_area]; norm_num [interpArea])

/-- C10 witness: both leak formulas evaluated at t = 5. -/
theorem C10_leak_divergence_witness :
    (calculate_complex_state 5).total_leak_kg = 48 * 5 ∧
    (calculate_state 5).total_leak_kg = 48 * 5 :=
  C10_leak_divergence.2 5 (by norm_num) (by norm_num)

end LngSim
